import Mathlib

/-!
Shallow embedding of the clarion/cstime conversion library.

The library converts between compact legacy numeric encodings and standard
calendar-date, time-of-day and RGB representations:

* `ClarionDate` / `CSDate`: an i32 count of days relative to 28 December 1800.
* `ClarionTime` / `CSTime`: an i32 count of centiseconds since midnight.
* `ClarionColor` / `RgbColor`: a packed 24-bit integer versus three 8-bit
  channels, with red in the least-significant byte.

The external collaborator types `time::Date` and `time::Time` (from the Rust
`time` crate) are modelled as follows.  A `time::Date` is uniquely determined
by its day number; we represent it by the signed count of days since
1970-01-01 in the proleptic Gregorian calendar (the function `daysFromCivil`
maps a year/month/day triple to that count), bounded by the crate's
representable range -9999-01-01 ..= 9999-12-31.  `Date::checked_add` of a whole
number of days succeeds exactly when the result stays inside that range.
A `time::Time` is represented by its nanoseconds-since-midnight; adding a
duration wraps around 24 hours, exactly as the crate documents.

Machine integers are embedded as `Int`.  Rust's `%` and `/` on signed
integers truncate toward zero, so they are translated to `Int.tmod` and
`Int.tdiv`; the lossy casts `as i32` and `as u8` are translated to explicit
reductions modulo 2^32 (`wrap32`) and 2^8 (`toU8`).  Fallible constructors
return `Except`, and the `Option` returned by `Date.checkedAddDays` models
`Date::checked_add`.
-/

namespace Clarion

/-- Error states of the clarion library (clarion_err.rs). -/
inductive ClarionErr where
  | ConversionOverflowed
  | OutOfRange
deriving DecidableEq, Repr

/-- Decidable equality for `Except` results, used to evaluate conversion
outcomes on concrete inputs. -/
instance {ε α : Type} [DecidableEq ε] [DecidableEq α] : DecidableEq (Except ε α) := fun x y =>
  match x, y with
  | Except.ok a, Except.ok b =>
    if h : a = b then Decidable.isTrue (congrArg Except.ok h)
    else Decidable.isFalse (fun hc => h (Except.ok.inj hc))
  | Except.error a, Except.error b =>
    if h : a = b then Decidable.isTrue (congrArg Except.error h)
    else Decidable.isFalse (fun hc => h (Except.error.inj hc))
  | Except.ok _, Except.error _ => Decidable.isFalse (fun hc => Except.noConfusion hc)
  | Except.error _, Except.ok _ => Decidable.isFalse (fun hc => Except.noConfusion hc)

/-- Truncating cast of a machine integer to `u8` (its low 8 bits). -/
def toU8 (x : Int) : Nat := (x % 256).toNat

/-- Truncating cast of a wider machine integer to `i32` (two's complement). -/
def wrap32 (x : Int) : Int := (x + 2147483648) % 4294967296 - 2147483648

/-- A 24-bit RGB color from rgb_color.rs; each channel is a `u8`
(a natural number below 256). -/
structure RgbColor where
  red : Nat
  green : Nat
  blue : Nat
deriving DecidableEq, Repr

/-- A color in the Clarion packed format (clarion_color.rs): an i32 intended
to lie between 0 and 16777215. -/
structure ClarionColor where
  color : Int
deriving DecidableEq, Repr

/-- Maximum packed color value (white), `ClarionColor::MAX`. -/
def ClarionColor.MAX : Int := 16777215

/-- Minimum packed color value (black), `ClarionColor::MIN`. -/
def ClarionColor.MIN : Int := 0

/-- Validating constructor `ClarionColor::new`: accepts exactly the values
between `ClarionColor::MIN` and `ClarionColor::MAX`. -/
def ClarionColor.new (color : Int) : Except ClarionErr ClarionColor :=
  if color ≤ ClarionColor.MAX ∧ ClarionColor.MIN ≤ color then
    Except.ok ⟨color⟩
  else
    Except.error ClarionErr.OutOfRange

/-- Decoding `impl From<ClarionColor> for RgbColor` (rgb_color.rs): extracts
blue from the high byte, green from the middle byte and red from the low
byte, each truncated to `u8`. -/
def RgbColor.ofClarion (c : ClarionColor) : RgbColor :=
  let color := c.color
  let blue := toU8 (color.tdiv 65536)
  let green := toU8 ((color.tmod 65536).tdiv 256)
  let red := toU8 (color.tmod 256)
  { red := red, green := green, blue := blue }

/-- Encoding `impl From<RgbColor> for ClarionColor` (clarion_color.rs):
widens each channel to i32 and combines `red + green*256 + blue*65536`. -/
def ClarionColor.ofRgb (c : RgbColor) : ClarionColor :=
  let red : Int := (c.red : Int)
  let green : Int := (c.green : Int) * 256
  let blue : Int := (c.blue : Int) * 65536
  ⟨red + green + blue⟩

/-- Count of days from 1970-01-01 to the proleptic-Gregorian calendar date
`y`-`m`-`d` (the standard civil-calendar day-numbering function). -/
def daysFromCivil (y m d : Int) : Int :=
  let y := if m ≤ 2 then y - 1 else y
  let era := y / 400
  let yoe := y - era * 400
  let mp := (m + 9) % 12
  let doy := (153 * mp + 2) / 5 + d - 1
  let doe := yoe * 365 + yoe / 4 - yoe / 100 + doy
  era * 146097 + doe - 719468

/-- Model of `time::Date`: a calendar date identified by its day number
(days since 1970-01-01, proleptic Gregorian). -/
structure Date where
  days : Int
deriving DecidableEq, Repr

/-- The calendar date with the given year, month and day. -/
def civil (y m d : Int) : Date := ⟨daysFromCivil y m d⟩

/-- Day number of `time::Date::MIN` (-9999-01-01). -/
def Date.minDays : Int := daysFromCivil (-9999) 1 1

/-- Day number of `time::Date::MAX` (9999-12-31). -/
def Date.maxDays : Int := daysFromCivil 9999 12 31

/-- The date is within the representable range of `time::Date`; every value
of the Rust type satisfies this. -/
def Date.isValid (d : Date) : Prop := Date.minDays ≤ d.days ∧ d.days ≤ Date.maxDays

instance (d : Date) : Decidable (Date.isValid d) :=
  inferInstanceAs (Decidable (_ ∧ _))

/-- Model of `time::Date::checked_add` restricted to whole days: succeeds
exactly when the shifted date is still representable. -/
def Date.checkedAddDays (dt : Date) (n : Int) : Option Date :=
  if Date.minDays ≤ dt.days + n ∧ dt.days + n ≤ Date.maxDays then
    some ⟨dt.days + n⟩
  else
    none

/-- The Clarion date epoch `CLARION_EPOCH`, 28 December 1800. -/
def CLARION_EPOCH : Date := civil 1800 12 28

/-- A date in the Clarion format (clarion_date.rs): an i32 count of days
relative to 28 December 1800. -/
structure ClarionDate where
  date : Int
deriving DecidableEq, Repr

/-- Constructor `ClarionDate::new`: stores the raw offset, no validation. -/
def ClarionDate.new (date : Int) : ClarionDate := ⟨date⟩

/-- Encoding `impl From<Date> for ClarionDate`: whole-day difference between
the date and the epoch, cast to i32. -/
def ClarionDate.ofDate (d : Date) : ClarionDate :=
  ⟨wrap32 (d.days - CLARION_EPOCH.days)⟩

/-- Decoding `impl TryFrom<ClarionDate> for Date` (clarion_date.rs): checked
addition of the offset to the epoch, reporting overflow as an error. -/
def Date.tryOfClarion (value : ClarionDate) : Except ClarionErr Date :=
  match CLARION_EPOCH.checkedAddDays value.date with
  | none => Except.error ClarionErr.ConversionOverflowed
  | some date => Except.ok date

/-- Constant `MIN_DAYS` from lib.rs: smallest day offset a `CSDate` accepts. -/
def MIN_DAYS : Int := -4309857

/-- Constant `MAX_DAYS` from lib.rs: largest day offset a `CSDate` accepts. -/
def MAX_DAYS : Int := 2994626

/-- The CSTime date epoch `CSTIME_EPOCH` from lib.rs, 28 December 1800. -/
def CSTIME_EPOCH : Date := civil 1800 12 28

/-- A date in the CSTime format (lib.rs): an i32 count of days relative to
28 December 1800, range-validated at construction. -/
structure CSDate where
  date : Int
deriving DecidableEq, Repr

/-- Validating constructor `CSDate::new` from lib.rs: rejects offsets outside
`MIN_DAYS ..= MAX_DAYS` with an out-of-range error message. -/
def CSDate.new (date : Int) : Except String CSDate :=
  if date > MAX_DAYS ∨ date < MIN_DAYS then
    Except.error "Date was out of range"
  else
    Except.ok ⟨date⟩

/-- The checked addition inside `impl From<CSDate> for time::Date` (lib.rs);
the Rust code unwraps this value, so the conversion panics exactly when this
is `none`. -/
def Date.ofCSDate (c : CSDate) : Option Date :=
  CSTIME_EPOCH.checkedAddDays c.date

/-- Nanoseconds in 24 hours. -/
def nsPerDay : Int := 86400000000000

/-- Model of `time::Time`: a time of day identified by its nanoseconds since
midnight. -/
structure Time where
  ns : Int
deriving DecidableEq, Repr

/-- Midnight, `time::Time::MIDNIGHT`. -/
def Time.MIDNIGHT : Time := ⟨0⟩

/-- Model of `time::Time + Duration::milliseconds(ms)`: the sum wraps around
24 hours, as the time crate documents. -/
def Time.addMs (t : Time) (ms : Int) : Time := ⟨(t.ns + ms * 1000000) % nsPerDay⟩

/-- The time of day `h`:`m`:`s` plus `cs` centiseconds. -/
def Time.hmscs (h m s cs : Int) : Time :=
  ⟨((h * 3600 + m * 60 + s) * 100 + cs) * 10000000⟩

/-- A time in the Clarion format (clarion_time.rs): an i32 count of
centiseconds since midnight. -/
structure ClarionTime where
  time : Int
deriving DecidableEq, Repr

/-- Constructor `ClarionTime::new`: reduces the offset modulo the number of
centiseconds in 24 hours using Rust's sign-preserving `%` operator. -/
def ClarionTime.new (time : Int) : ClarionTime := ⟨time.tmod 8640000⟩

/-- Decoding `impl From<ClarionTime> for time::Time`: adds `time * 10`
milliseconds to midnight. -/
def Time.ofClarionTime (v : ClarionTime) : Time :=
  Time.MIDNIGHT.addMs (v.time * 10)

/-- A time in the CSTime format (cstime.rs and lib.rs): an i32 count of
centiseconds since midnight, stored raw. -/
structure CSTime where
  time : Int
deriving DecidableEq, Repr

/-- Constructor `CSTime::new`: stores the raw offset, no normalization. -/
def CSTime.new (time : Int) : CSTime := ⟨time⟩

/-- Decoding `impl From<CSTime> for time::Time`: adds `time * 10`
milliseconds to midnight. -/
def Time.ofCSTime (c : CSTime) : Time :=
  Time.MIDNIGHT.addMs (c.time * 10)

/-- The day number of `time::Date::MIN`, evaluated. -/
theorem minDays_eq : Date.minDays = -4371587 := by decide

/-- The day number of `time::Date::MAX`, evaluated. -/
theorem maxDays_eq : Date.maxDays = 2932896 := by decide

/-- The day number of the Clarion epoch, evaluated. -/
theorem epoch_days_eq : CLARION_EPOCH.days = -61730 := by decide

/-- The day number of the CSTime epoch, evaluated. -/
theorem cstime_epoch_days_eq : CSTIME_EPOCH.days = -61730 := by decide

/-- The i32 cast is the identity on values already in i32 range. -/
theorem wrap32_eq_self (x : Int) (h1 : -2147483648 ≤ x) (h2 : x < 2147483648) :
    wrap32 x = x := by
  unfold wrap32
  omega

end Clarion

namespace Clarion

/-- Claim C1: for every packed color integer p in [0, 16777215], decoding p
to an RGB triple via `RgbColor::from` and re-encoding the triple via
`ClarionColor::from` yields exactly p. -/
theorem color_pack_unpack_roundtrip (p : Int) (h0 : 0 ≤ p) (h1 : p ≤ 16777215) :
    ClarionColor.ofRgb (RgbColor.ofClarion ⟨p⟩) = ⟨p⟩ := by
  simp only [RgbColor.ofClarion, ClarionColor.ofRgb, toU8]
  rw [Int.tmod_eq_emod h0 (by decide : (0:Int) ≤ 256),
      Int.tmod_eq_emod h0 (by decide : (0:Int) ≤ 65536),
      Int.tdiv_eq_ediv h0 (by decide : (0:Int) ≤ 65536),
      Int.tdiv_eq_ediv (Int.emod_nonneg p (by decide)) (by decide : (0:Int) ≤ 256)]
  simp only [ClarionColor.mk.injEq]
  omega

/-- Witness for C1 at the packed color 4259584. -/
theorem color_pack_unpack_roundtrip_witness :
    ClarionColor.ofRgb (RgbColor.ofClarion ⟨4259584⟩) = ⟨4259584⟩ :=
  color_pack_unpack_roundtrip 4259584 (by decide) (by decide)

/-- Claim C2: for every calendar date d within the encodable range, encoding
d to a day offset via `ClarionDate::from` and decoding that offset back via
`Date::try_from` succeeds and returns exactly d. -/
theorem date_encode_decode_roundtrip (d : Date) (h : Date.isValid d) :
    Date.tryOfClarion (ClarionDate.ofDate d) = Except.ok d := by
  obtain ⟨h1, h2⟩ := h
  rw [minDays_eq] at h1
  rw [maxDays_eq] at h2
  cases d with
  | mk days =>
    simp only [ClarionDate.ofDate, Date.tryOfClarion, Date.checkedAddDays, epoch_days_eq,
      minDays_eq, maxDays_eq] at *
    rw [wrap32_eq_self (days - -61730) (by omega) (by omega)]
    rw [if_pos (by omega)]
    simp only [Except.ok.injEq, Date.mk.injEq]
    omega

/-- Witness for C2 at 1 January 2000. -/
theorem date_encode_decode_roundtrip_witness :
    Date.tryOfClarion (ClarionDate.ofDate (civil 2000 1 1)) = Except.ok (civil 2000 1 1) :=
  date_encode_decode_roundtrip (civil 2000 1 1) (by decide)

/-- Claim C3: `ClarionColor::new` rejects every integer outside
[0, 16777215] with `OutOfRange` (in particular 16777216 and -1), and
`CSDate::new` rejects every day offset outside `MIN_DAYS ..= MAX_DAYS` with
its out-of-range error; the in-range packed colors 16777215 and 0 succeed. -/
theorem constructor_range_validation (c o : Int)
    (hc : ¬(c ≤ ClarionColor.MAX ∧ ClarionColor.MIN ≤ c))
    (ho : o > MAX_DAYS ∨ o < MIN_DAYS) :
    ClarionColor.new c = Except.error ClarionErr.OutOfRange
    ∧ CSDate.new o = Except.error "Date was out of range"
    ∧ ClarionColor.new 16777216 = Except.error ClarionErr.OutOfRange
    ∧ ClarionColor.new (-1) = Except.error ClarionErr.OutOfRange
    ∧ ClarionColor.new 16777215 = Except.ok ⟨16777215⟩
    ∧ ClarionColor.new 0 = Except.ok ⟨0⟩ := by
  refine ⟨?_, ?_, by decide, by decide, by decide, by decide⟩
  · simp only [ClarionColor.new, if_neg hc]
  · simp only [CSDate.new, if_pos ho]

/-- Witness for C3 at the out-of-range inputs 16777216 and 2994627. -/
theorem constructor_range_validation_witness :
    ClarionColor.new 16777216 = Except.error ClarionErr.OutOfRange
    ∧ CSDate.new 2994627 = Except.error "Date was out of range" := by
  have h := constructor_range_validation 16777216 2994627 (by decide) (by decide)
  exact ⟨h.1, h.2.1⟩

/-- Claim C4: time-of-day decoding succeeds for every centisecond offset
(the result is always a valid time of day) and wraps modularly over 24
hours: offset 0 decodes to 00:00:00, offset 1 to 00:00:00.01, offset -1 to
23:59:59.99, i32::MAX to 13:13:56.47 and i32::MIN to 10:46:03.52. -/
theorem time_decode_wraparound_values :
    (∀ t : Int, 0 ≤ (Time.ofClarionTime (ClarionTime.new t)).ns
      ∧ (Time.ofClarionTime (ClarionTime.new t)).ns < nsPerDay)
    ∧ Time.ofClarionTime (ClarionTime.new 0) = Time.hmscs 0 0 0 0
    ∧ Time.ofClarionTime (ClarionTime.new 1) = Time.hmscs 0 0 0 1
    ∧ Time.ofClarionTime (ClarionTime.new (-1)) = Time.hmscs 23 59 59 99
    ∧ Time.ofClarionTime (ClarionTime.new 2147483647) = Time.hmscs 13 13 56 47
    ∧ Time.ofClarionTime (ClarionTime.new (-2147483648)) = Time.hmscs 10 46 3 52 := by
  refine ⟨fun t => ?_, by decide, by decide, by decide, by decide, by decide⟩
  simp only [Time.ofClarionTime, Time.addMs, Time.MIDNIGHT, nsPerDay]
  exact ⟨Int.emod_nonneg _ (by decide), Int.emod_lt_of_pos _ (by decide)⟩

/-- Claim C5: the date codec maps offsets and dates with epoch 28 December
1800 in both directions: offsets 0, 1, -1 and 72687 decode to 28 December
1800, 29 December 1800, 27 December 1800 and 1 January 2000, and encoding
each of those dates returns the corresponding offset. -/
theorem date_epoch_mapping :
    Date.tryOfClarion (ClarionDate.new 0) = Except.ok (civil 1800 12 28)
    ∧ Date.tryOfClarion (ClarionDate.new 1) = Except.ok (civil 1800 12 29)
    ∧ Date.tryOfClarion (ClarionDate.new (-1)) = Except.ok (civil 1800 12 27)
    ∧ Date.tryOfClarion (ClarionDate.new 72687) = Except.ok (civil 2000 1 1)
    ∧ (ClarionDate.ofDate (civil 1800 12 28)).date = 0
    ∧ (ClarionDate.ofDate (civil 1800 12 29)).date = 1
    ∧ (ClarionDate.ofDate (civil 1800 12 27)).date = -1
    ∧ (ClarionDate.ofDate (civil 2000 1 1)).date = 72687 := by
  refine ⟨by decide, by decide, by decide, by decide, by decide, by decide, by decide, by decide⟩

/-- Claim C6: for every packed color p in [0, 16777215], decoding yields
channels red = p % 256, green = (p / 256) % 256 and blue = p / 65536; in
particular 255 decodes to (255,0,0), 16711680 to (0,0,255) and 4259584 to
(0,255,64). -/
theorem color_channel_extraction (p : Int) (h0 : 0 ≤ p) (h1 : p ≤ 16777215) :
    RgbColor.ofClarion ⟨p⟩ =
      ⟨(p % 256).toNat, (p / 256 % 256).toNat, (p / 65536).toNat⟩
    ∧ RgbColor.ofClarion ⟨255⟩ = ⟨255, 0, 0⟩
    ∧ RgbColor.ofClarion ⟨16711680⟩ = ⟨0, 0, 255⟩
    ∧ RgbColor.ofClarion ⟨4259584⟩ = ⟨0, 255, 64⟩ := by
  refine ⟨?_, by decide, by decide, by decide⟩
  simp only [RgbColor.ofClarion, toU8]
  rw [Int.tmod_eq_emod h0 (by decide : (0:Int) ≤ 256),
      Int.tmod_eq_emod h0 (by decide : (0:Int) ≤ 65536),
      Int.tdiv_eq_ediv h0 (by decide : (0:Int) ≤ 65536),
      Int.tdiv_eq_ediv (Int.emod_nonneg p (by decide)) (by decide : (0:Int) ≤ 256)]
  simp only [RgbColor.mk.injEq]
  refine ⟨by omega, by omega, by omega⟩

/-- Witness for C6 at the packed color 4259584. -/
theorem color_channel_extraction_witness :
    RgbColor.ofClarion ⟨(4259584 : Int)⟩ = ⟨0, 255, 64⟩ :=
  (color_channel_extraction 4259584 (by decide) (by decide)).2.2.2

/-- Claim C7: the unwrap inside the CSDate-to-Date conversion in lib.rs is
unreachable for every CSDate obtainable through the public API: whenever
`CSDate::new` succeeds, the checked addition it unwraps returns a date, so
the conversion cannot panic. -/
theorem csdate_to_date_no_panic (o : Int) (c : CSDate) (h : CSDate.new o = Except.ok c) :
    ∃ d : Date, Date.ofCSDate c = some d := by
  simp only [CSDate.new] at h
  by_cases hcond : o > MAX_DAYS ∨ o < MIN_DAYS
  · rw [if_pos hcond] at h
    exact absurd h (by simp)
  · rw [if_neg hcond] at h
    have hco : c = ⟨o⟩ := (Except.ok.inj h).symm
    subst hco
    simp only [MAX_DAYS, MIN_DAYS] at hcond
    refine ⟨⟨-61730 + o⟩, ?_⟩
    simp only [Date.ofCSDate, Date.checkedAddDays, minDays_eq, maxDays_eq, cstime_epoch_days_eq]
    rw [if_pos (by omega)]

/-- Witness for C7 at the day offset 80727 (5 January 2022). -/
theorem csdate_to_date_no_panic_witness :
    ∃ d : Date, Date.ofCSDate ⟨80727⟩ = some d :=
  csdate_to_date_no_panic 80727 ⟨80727⟩ (by decide)

/-- Claim C8: every ClarionColor obtainable through the public API has its
packed integer in [0, 16777215]: the encoding of any RgbColor (with u8
channels) lands in that range without run-time validation, and any value
accepted by `ClarionColor::new` is in that range. -/
theorem clarion_color_invariant (r g b : Nat) (hr : r ≤ 255) (hg : g ≤ 255) (hb : b ≤ 255)
    (x : Int) (cc : ClarionColor) (h : ClarionColor.new x = Except.ok cc) :
    (0 ≤ (ClarionColor.ofRgb ⟨r, g, b⟩).color ∧ (ClarionColor.ofRgb ⟨r, g, b⟩).color ≤ 16777215)
    ∧ (0 ≤ cc.color ∧ cc.color ≤ 16777215) := by
  constructor
  · show (0 ≤ (r : Int) + (g : Int) * 256 + (b : Int) * 65536
      ∧ (r : Int) + (g : Int) * 256 + (b : Int) * 65536 ≤ 16777215)
    omega
  · cases cc with
    | mk v =>
      simp only [ClarionColor.new, ClarionColor.MAX, ClarionColor.MIN] at h
      by_cases hcond : x ≤ 16777215 ∧ 0 ≤ x
      · rw [if_pos hcond] at h
        have hv : x = v := by
          have h2 := Except.ok.inj h
          simpa [ClarionColor.mk.injEq] using h2
        show 0 ≤ v ∧ v ≤ 16777215
        omega
      · rw [if_neg hcond] at h
        exact absurd h (by simp)

/-- Witness for C8 at the white RGB triple and the packed color 0. -/
theorem clarion_color_invariant_witness :
    (0 ≤ (ClarionColor.ofRgb ⟨255, 255, 255⟩).color
      ∧ (ClarionColor.ofRgb ⟨255, 255, 255⟩).color ≤ 16777215)
    ∧ (0 ≤ (ClarionColor.mk 0).color ∧ (ClarionColor.mk 0).color ≤ 16777215) :=
  clarion_color_invariant 255 255 255 (by decide) (by decide) (by decide) 0 ⟨0⟩ (by decide)

/-- Claim C9: the two duplicate time codecs agree on decode: for every i32
offset t, decoding via ClarionTime (whose constructor reduces the stored
value with the sign-preserving native remainder) and decoding via CSTime
(which stores t raw) produce the same time of day. -/
theorem time_codecs_equivalent (t : Int) (h : -2147483648 ≤ t ∧ t ≤ 2147483647) :
    Time.ofClarionTime (ClarionTime.new t) = Time.ofCSTime (CSTime.new t) := by
  simp only [Time.ofClarionTime, Time.ofCSTime, ClarionTime.new, CSTime.new, Time.addMs,
    Time.MIDNIGHT, nsPerDay]
  rw [Int.tmod_def]
  congr 1
  generalize t.tdiv 8640000 = k
  ring_nf
  omega

/-- Witness for C9 at the offset -1. -/
theorem time_codecs_equivalent_witness :
    Time.ofClarionTime (ClarionTime.new (-1)) = Time.ofCSTime (CSTime.new (-1)) :=
  time_codecs_equivalent (-1) (by decide)

/-- Claim C10: for every i32 day offset o on which decoding succeeds,
re-encoding the decoded date gives back the same offset. -/
theorem offset_date_offset_roundtrip (o : Int) (h32 : -2147483648 ≤ o ∧ o ≤ 2147483647)
    (d : Date) (h : Date.tryOfClarion (ClarionDate.new o) = Except.ok d) :
    (ClarionDate.ofDate d).date = o := by
  simp only [Date.tryOfClarion, Date.checkedAddDays, ClarionDate.new, minDays_eq, maxDays_eq,
    epoch_days_eq] at h
  split_ifs at h with hcond
  have hd : d = ⟨-61730 + o⟩ := (Except.ok.inj h).symm
  subst hd
  simp only [ClarionDate.ofDate, epoch_days_eq]
  rw [wrap32_eq_self (-61730 + o - -61730) (by omega) (by omega)]
  omega

/-- Witness for C10 at the offset 80727 (5 January 2022). -/
theorem offset_date_offset_roundtrip_witness :
    (ClarionDate.ofDate (civil 2022 1 5)).date = 80727 :=
  offset_date_offset_roundtrip 80727 (by decide) (civil 2022 1 5) (by decide)

end Clarion
